import Mathlib

/-!
Verification of the restaurant-recommender backend (`backend/app`):
a shallow embedding of the document builder (`tools.setup_rag`), the
retriever tool (`tools.RAG_Retriever._run`), the stage-graph assembly in
`main.recommend`, the startup wiring (`main.startup_event`), the pydantic
shape validation of `models.UserProfile`, and the default visit-history
loader (`data_loader.load_default_history`), together with theorems
settling the specified properties.
-/

/-! ## Data model: shop records and search documents (`tools.py`) -/

/-- A shop record as read from the JSON database `db.txt`.  Every field the
code accesses with `shop.get(key, default)` is optional here; `none` means
the key is absent from the JSON object.  `rating` is modelled as an integer
(the code only ever substitutes it, or its default `0`, into the document
text). -/
structure ShopRecord where
  label : Option String
  type_ : Option String
  location : Option String
  rating : Option Int
  price_range : Option String
  short_description : Option String
  signature_items : Option (List String)
  review_titles : Option (List String)
  reviews : Option (List String)
deriving Repr, DecidableEq

/-- The restaurant database: category name mapped to its list of shop
records, in file order (`restaurants`, `cafes`, `bakeries`). -/
abbrev Db := List (String × List ShopRecord)

/-- `tools.setup_rag`, line 70: the price tier substituted into the document
text is `len(price_range)//3 if price_range else 0`, where `price_range`
itself is `shop.get('price_range', '')`.  A missing key gives the default
`''`, which is falsy, hence tier `0`. -/
def priceTier (price_range : Option String) : Nat :=
  let s := price_range.getD ""
  if s.isEmpty then 0 else s.length / 3

/-- One line of the signature-dish list: `Dish {i+1}: {dish}.\n`. -/
def dishLine (i : Nat) (dish : String) : String :=
  "Dish " ++ toString (i + 1) ++ ": " ++ dish ++ ".\n"

/-- The `signature_dishes` accumulation loop of `tools.setup_rag`
(lines 48-50), carrying the enumeration index. -/
def signatureDishesAux (i : Nat) : List String → String
  | [] => ""
  | d :: rest => dishLine i d ++ signatureDishesAux (i + 1) rest

/-- The full signature-dish section built from `shop.get('signature_items', [])`. -/
def signatureDishes (items : List String) : String :=
  signatureDishesAux 0 items

/-- One line of the review list:
`Review {i+1}. Title: {title}. Text: {text}.\n`. -/
def reviewLine (i : Nat) (title text : String) : String :=
  "Review " ++ toString (i + 1) ++ ". Title: " ++ title ++ ". Text: " ++ text ++ ".\n"

/-- The `review_contents` accumulation loop of `tools.setup_rag`
(lines 52-55): iterate over the review titles with index `i`; the paired
text is `shop['reviews'][i] if i < len(shop.get('reviews', [])) else ""`,
i.e. the `i`-th review text when it exists and `""` otherwise. -/
def reviewContentsAux (i : Nat) (titles texts : List String) : String :=
  match titles with
  | [] => ""
  | t :: rest => reviewLine i t (texts.getD i "") ++ reviewContentsAux (i + 1) rest texts

/-- The full review section built from `shop.get('review_titles', [])` and
`shop.get('reviews', [])`. -/
def reviewContents (titles texts : List String) : String :=
  reviewContentsAux 0 titles texts

/-- The header of the document text up to and excluding the price-range
field (`tools.setup_rag` lines 65-69). -/
def shopContentPre (shop : ShopRecord) : String :=
  "Shop name: " ++ shop.label.getD "Unknown" ++ ". " ++
  "Shop type: " ++ shop.type_.getD "Unknown" ++ ". " ++
  "Shop location: " ++ shop.location.getD "Unknown" ++ ". " ++
  "Shop rating: " ++ toString (shop.rating.getD 0) ++ ". "

/-- The tail of the document text after the price-range field
(`tools.setup_rag` lines 71-76). -/
def shopContentPost (shop : ShopRecord) : String :=
  "Shop short description: " ++ shop.short_description.getD "" ++ ". \n\n" ++
  "The following are the signature dishes. \n" ++
  signatureDishes (shop.signature_items.getD []) ++ "\n" ++
  "The following are the sampled reviews. \n" ++
  reviewContents (shop.review_titles.getD []) (shop.reviews.getD [])

/-- The complete `content` f-string of `tools.setup_rag` (lines 65-76) for
one shop record.  Missing fields take the `shop.get` defaults: `Unknown`
for name/type/location, `0` for rating, `''` for price range and short
description, `[]` for the three list fields. -/
def shopContent (shop : ShopRecord) : String :=
  shopContentPre shop ++
  ("Shop price_range: " ++ toString (priceTier shop.price_range) ++ ". ") ++
  shopContentPost shop

/-- A langchain `Document` as built by `tools.setup_rag` (lines 78-82):
its metadata id (an integer), its source category, and its page content. -/
structure SearchDocument where
  id : Nat
  source : String
  text : String
deriving Repr, DecidableEq

/-- The document for one shop record at a given running `doc_id`. -/
def mkDoc (n : Nat) (source : String) (shop : ShopRecord) : SearchDocument :=
  { id := n, source := source, text := shopContent shop }

/-- The inner loop of `tools.setup_rag` (lines 46-84) over the records of
one category, threading the running `doc_id`. -/
def buildCat (source : String) (shops : List ShopRecord) (n : Nat) : List SearchDocument :=
  match shops with
  | [] => []
  | shop :: rest => mkDoc n source shop :: buildCat source rest (n + 1)

/-- The outer loop of `tools.setup_rag` (lines 45-84) over the categories,
threading the running `doc_id` across categories. -/
def buildAux (db : Db) (n : Nat) : List SearchDocument :=
  match db with
  | [] => []
  | (source, shops) :: rest => buildCat source shops n ++ buildAux rest (n + shops.length)

/-- The document-building phase of `tools.setup_rag`: `doc_id` starts at 0
and every record of every category yields exactly one document. -/
def buildDocuments (db : Db) : List SearchDocument :=
  buildAux db 0

/-- The input records flattened in iteration order, each paired with its
category name. -/
def flattenDb (db : Db) : List (String × ShopRecord) :=
  match db with
  | [] => []
  | (source, shops) :: rest => shops.map (fun s => (source, s)) ++ flattenDb rest

/-! ## Retriever tool (`tools.RAG_Retriever._run`) -/

/-- Python `str` of the `recommendation_dict` built by the tool: a dict
from `Recommendation {i+1}` keys to page contents, rendered in insertion
order with single-quoted keys and values (so the empty dict renders as
`\x7b\x7d`). -/
def pyStrDict (entries : List (String × String)) : String :=
  "\x7b" ++
  String.intercalate ", "
    (entries.map (fun e => "\x27" ++ e.1 ++ "\x27: \x27" ++ e.2 ++ "\x27")) ++
  "\x7d"

/-- `tools.RAG_Retriever._run` (lines 115-125).  The injected retriever is
`none` when it was never initialized; otherwise it is a function from the
query to either the retrieved page contents (`Except.ok`) or the message of
an exception raised by `invoke` (`Except.error`, caught by the tool's
`try/except`). -/
def RAG_Retriever_run (retriever : Option (String → Except String (List String)))
    (user_profile : String) : String :=
  match retriever with
  | none => "Retriever not initialized."
  | some invoke =>
    match invoke user_profile with
    | .error e => "Error using RAG tool: " ++ e
    | .ok res =>
      pyStrDict (res.enum.map (fun p => ("Recommendation " ++ toString (p.1 + 1), p.2)))

/-! ## RAG setup entry (`tools.setup_rag`) and startup (`main.startup_event`) -/

/-- The retriever handle produced by a successful `setup_rag`.  The
embedding-backed vector store (`WatsonxEmbeddings`/`Chroma`) is an external
capability; the handle is modelled by the documents it indexes. -/
abbrev Retriever := List SearchDocument

/-- `tools.setup_rag(api_key=None, project_id=None, url=None)`
(lines 21-107): raises `ValueError` (modelled as `Except.error` with the
exact message) when `url` or `project_id` is missing; otherwise reads the
database file (`none` models a missing `db.txt`, replaced by the empty
three-category database) and builds the documents. -/
def setup_rag (db : Option Db) (api_key project_id url : Option String) :
    Except String Retriever :=
  if url.isNone then
    .error "URL for Watsonx must be provided."
  else if project_id.isNone then
    .error "Project ID for Watsonx must be provided."
  else
    let restaurant_db := db.getD [("restaurants", []), ("cafes", []), ("bakeries", [])]
    let _ := api_key
    .ok (buildDocuments restaurant_db)

/-- The module-level tool handles set by `main.startup_event`. -/
structure StartupState where
  retriever_tool : Option Retriever
  search_tool : Bool
deriving Repr, DecidableEq

/-- `main.startup_event` (lines 36-80): the Gemini key counts as configured
when present, non-empty and not a `your_` placeholder; when configured,
`setup_rag(api_key=gemini_apikey)` is called (so `project_id` and `url`
keep their `None` defaults) and any exception is caught, leaving
`retriever_tool = None`.  The Serper tool is initialized when its key is
present and not a placeholder. -/
def startup_event (gemini_apikey serper_api_key : Option String) (db : Option Db) :
    StartupState :=
  let gemini : Option String :=
    match gemini_apikey with
    | none => none
    | some s => if s.isEmpty || s.startsWith "your_" then none else some s
  let retriever_tool : Option Retriever :=
    match gemini with
    | none => none
    | some key =>
      match setup_rag db (some key) none none with
      | .ok r => some r
      | .error _ => none
  let search_tool : Bool :=
    match serper_api_key with
    | none => false
    | some s => !(s.startsWith "your_")
  ⟨retriever_tool, search_tool⟩

/-! ## Stage graph assembled per request (`main.recommend`, lines 173-223) -/

/-- The four task kinds created in `main.recommend`. -/
inductive StageName where
  | profile
  | retrieval
  | trend
  | recommendation
deriving Repr, DecidableEq

/-- A task as a stage descriptor: its kind and the names of the tasks in
its `context` list (its data dependencies), in list order. -/
structure Stage where
  name : StageName
  deps : List StageName
deriving Repr, DecidableEq

/-- The task list assembled by `main.recommend` (lines 181-223): the user
profile task first (no context); the coarse RAG task when the retriever
tool exists (context `[user_profile_task]`); the food-trend task when the
trend researcher exists (no context argument at all); finally the
recommendation task whose context is the profile task plus whichever
optional tasks were created, in that order. -/
def buildGraph (ret trend : Bool) : List Stage :=
  [⟨.profile, []⟩] ++
  (if ret then [⟨.retrieval, [.profile]⟩] else []) ++
  (if trend then [⟨.trend, []⟩] else []) ++
  [⟨.recommendation,
    [.profile] ++ (if ret then [.retrieval] else []) ++ (if trend then [.trend] else [])⟩]

/-! ## Default visit history (`data_loader.load_default_history`) -/

/-- One row of `review-user.csv` after the column selection
`[['itemId','title','text','rating']]`. -/
structure ReviewRow where
  itemId : Int
  title : String
  text : String
  rating : Rat
deriving Repr, DecidableEq

/-- One row of `restaurant-item.csv`, with the columns the loader reads.
`priceInterval` is `none` when the cell is NaN (missing). -/
structure ItemRow where
  itemId : Int
  type_ : String
  priceInterval : Option String
  rating : Rat
deriving Repr, DecidableEq

/-- One record of the produced visit history (a row of the renamed frame,
as a dict). -/
structure VisitRecord where
  restaurant_info : String
  review_title : String
  review_text : String
  rating : Rat
deriving Repr, DecidableEq

/-- The filesystem/content environment `load_default_history` runs in:
for each CSV, `none` models a missing file, `Except.error` a file whose
reading or processing raises (unreadable or malformed content), and
`Except.ok` the parsed rows. -/
structure Env where
  review_csv : Option (Except String (List ReviewRow))
  item_csv : Option (Except String (List ItemRow))

/-- `price_interval_map` from `data_loader.load_default_history` (line 21):
the dict `{nan: 0, '$': 1, '$$ - $$$': 2, '$$$$': 3}` used with
`Series.map`, which sends values outside the dict to NaN (`none`). -/
def price_interval_map (v : Option String) : Option Nat :=
  match v with
  | none => some 0
  | some s =>
    if s = "$" then some 1
    else if s = "$$ - $$$" then some 2
    else if s = "$$$$" then some 3
    else none

/-- Rendering of a mapped price interval inside the summary f-string
(NaN prints as `nan`). -/
def showPriceInterval (v : Option Nat) : String :=
  match v with
  | none => "nan"
  | some n => toString n

/-- `itemId_map` from `data_loader.load_default_history` (lines 26-32),
applied after `restaurant_info['priceInterval']` has been mapped in place:
looks up the first item row with the given id and renders the summary, or
the fixed no-information sentence. -/
def itemId_map (items : List ItemRow) (itemId : Int) : String :=
  match items.find? (fun it => it.itemId == itemId) with
  | none => "This restaurant has no information."
  | some it =>
    "This is a restaurant of type " ++ it.type_ ++
    " with price interval " ++ showPriceInterval (price_interval_map it.priceInterval) ++
    ". It has average rating " ++ toString (it.rating / 10) ++ "."

/-- The successful body of `load_default_history` (lines 17-59): map each
review row's rating through `rating/10.0`, its itemId through `itemId_map`,
rename the columns and emit one dict per row. -/
def processHistory (reviews : List ReviewRow) (items : List ItemRow) : List VisitRecord :=
  reviews.map (fun r =>
    { restaurant_info := itemId_map items r.itemId
      review_title := r.title
      review_text := r.text
      rating := r.rating / 10 })

/-- `data_loader.load_default_history` (lines 8-62): returns `[]` when
either data file is missing (lines 13-15), returns `[]` when anything in
the body raises (the enclosing `try/except`, lines 60-62), and otherwise
returns the processed rows. -/
def load_default_history (env : Env) : List VisitRecord :=
  match env.review_csv, env.item_csv with
  | none, _ => []
  | _, none => []
  | some (.error _), _ => []
  | some (.ok _), some (.error _) => []
  | some (.ok reviews), some (.ok items) => processHistory reviews items

/-! ## The `/recommend` endpoint (`main.recommend`) -/

/-- The response model `models.RestaurantRecommendation`. -/
structure RestaurantRecommendation where
  recommendations : String
  crew_log : String
deriving Repr, DecidableEq

/-- The visit history `main.recommend` proceeds with (lines 146-155): the
request's history when it is a non-empty list (a `None` or `[]` value is
falsy), otherwise the default history loaded from disk; the `try/except`
around the loader falls back to `[]`, which in the model never fires since
`load_default_history` is total. -/
def effectiveHistory (request_history : Option (List VisitRecord)) (env : Env) :
    List VisitRecord :=
  match request_history with
  | none => load_default_history env
  | some h => if h.isEmpty then load_default_history env else h

/-- The 503 detail string raised by `main.recommend` when no LLM handle was
initialized (lines 139-143). -/
def serviceUnavailableDetail : String :=
  "Service not available: Google Gemini API key not configured. Please update the .env file with valid GEMINI_API_KEY."

/-- `main.recommend` (lines 136-257).  `llm` is whether the generation
capability was initialized at startup; `ret`/`trend` are whether the
retriever tool and the trend researcher exist; `kickoff` is the external
crew execution, taking the assembled task list, the input visit history
and the location, and returning either the result text or the message of
a raised exception (wrapped into a 500 error).  When `llm` is false the
endpoint raises 503 before any task is created or executed. -/
def recommend (llm ret trend : Bool) (request_history : Option (List VisitRecord))
    (env : Env) (location : String)
    (kickoff : List Stage → List VisitRecord → String → Except String String) :
    Except (Nat × String) RestaurantRecommendation :=
  if llm then
    let visit_history := effectiveHistory request_history env
    let tasks := buildGraph ret trend
    match kickoff tasks visit_history location with
    | .ok result => .ok ⟨result, "Crew execution completed."⟩
    | .error e => .error (500, e)
  else
    .error (503, serviceUnavailableDetail)

/-! ## Shape validation of `models.UserProfile` -/

/-- A Python/JSON value as produced by the profile-stage generation and fed
to pydantic validation. -/
inductive PyVal where
  | pstr (s : String)
  | pint (n : Int)
  | pfloat (q : Rat)
  | pdict (entries : List (String × PyVal))
  | plist (items : List PyVal)
  | pnone

/-- pydantic coercion to `float`: accepts ints and floats. -/
def asFloat : PyVal → Option Rat
  | .pint n => some (n : Rat)
  | .pfloat q => some q
  | _ => none

/-- pydantic coercion to `int`. -/
def asInt : PyVal → Option Int
  | .pint n => some n
  | _ => none

/-- pydantic coercion to `str`. -/
def asStr : PyVal → Option String
  | .pstr s => some s
  | _ => none

/-- Field lookup in a dict value. -/
def pyGet (entries : List (String × PyVal)) (key : String) : Option PyVal :=
  (entries.find? (fun e => e.1 == key)).map (fun e => e.2)

/-- Validation of the `preferred_cuisines` field against `Dict[str, float]`
(`models.UserProfile`, line 9): every entry's value must coerce to a float.
The declared type carries no range constraint — the `(0-1)` in the field's
`description` is prompt documentation only, not validation. -/
def validateCuisines : List (String × PyVal) → Option (List (String × Rat))
  | [] => some []
  | (k, v) :: rest =>
    match asFloat v, validateCuisines rest with
    | some q, some r => some ((k, q) :: r)
    | _, _ => none

/-- The validated `models.UserProfile` (lines 8-13). -/
structure UserProfile where
  preferred_cuisines : List (String × Rat)
  price_tier_preference : Int
  avg_rating_preference : Rat
  dining_environment_preference : String
  summary : String
deriving Repr, DecidableEq

/-- pydantic shape validation of `models.UserProfile` (lines 8-13), as run
on the profile task's output (`output_pydantic=UserProfile`,
`main.recommend` lines 174-179): the value must be a dict providing all
five required fields with the declared types.  No field carries a numeric
range constraint. -/
def validateUserProfile (v : PyVal) : Option UserProfile :=
  match v with
  | .pdict d =>
    match pyGet d "preferred_cuisines", pyGet d "price_tier_preference",
          pyGet d "avg_rating_preference", pyGet d "dining_environment_preference",
          pyGet d "summary" with
    | some (.pdict pc), some pt, some ar, some de, some su =>
      match validateCuisines pc, asInt pt, asFloat ar, asStr de, asStr su with
      | some pc2, some pt2, some ar2, some de2, some su2 =>
        some ⟨pc2, pt2, ar2, de2, su2⟩
      | _, _, _, _, _ => none
    | _, _, _, _, _ => none
  | _ => none

/-- A dict value for a profile whose `preferred_cuisines` carries the given
scores, used to probe the validator. -/
def mkProfileVal (cuisines : List (String × Rat)) (pt : Int) (ar : Rat)
    (de su : String) : PyVal :=
  .pdict
    [("preferred_cuisines", .pdict (cuisines.map (fun c => (c.1, .pfloat c.2)))),
     ("price_tier_preference", .pint pt),
     ("avg_rating_preference", .pfloat ar),
     ("dining_environment_preference", .pstr de),
     ("summary", .pstr su)]

/-! ## Helper lemmas -/

/-- Concatenation of a list of strings. -/
def concatAll (l : List String) : String :=
  l.foldr (fun a b => a ++ b) ""

lemma buildCat_map_id (source : String) (shops : List ShopRecord) (n : Nat) :
    (buildCat source shops n).map (fun d => d.id) = List.range' n shops.length := by
  induction shops generalizing n with
  | nil => rfl
  | cons shop rest ih =>
    simp [buildCat, mkDoc, List.range'_succ, ih]

lemma buildCat_map_rec (source : String) (shops : List ShopRecord) (n : Nat) :
    (buildCat source shops n).map (fun d => (d.source, d.text)) =
      shops.map (fun s => (source, shopContent s)) := by
  induction shops generalizing n with
  | nil => rfl
  | cons shop rest ih =>
    simp [buildCat, mkDoc, ih]

lemma flattenDb_cons_length (source : String) (shops : List ShopRecord) (rest : Db) :
    (flattenDb ((source, shops) :: rest)).length = shops.length + (flattenDb rest).length := by
  simp [flattenDb]

lemma range'_split (n a b : Nat) :
    List.range' n a ++ List.range' (n + a) b = List.range' n (a + b) := by
  have h := List.range'_append n a b 1
  simp only [Nat.one_mul] at h
  rw [Nat.add_comm a b]
  exact h

lemma buildAux_map_id (db : Db) (n : Nat) :
    (buildAux db n).map (fun d => d.id) = List.range' n (flattenDb db).length := by
  induction db generalizing n with
  | nil => rfl
  | cons p rest ih =>
    obtain ⟨source, shops⟩ := p
    rw [buildAux, List.map_append, buildCat_map_id, ih, flattenDb_cons_length,
      range'_split]

lemma buildAux_map_rec (db : Db) (n : Nat) :
    (buildAux db n).map (fun d => (d.source, d.text)) =
      (flattenDb db).map (fun p => (p.1, shopContent p.2)) := by
  induction db generalizing n with
  | nil => rfl
  | cons p rest ih =>
    obtain ⟨source, shops⟩ := p
    rw [buildAux, List.map_append, buildCat_map_rec, ih]
    simp [flattenDb, List.map_map, Function.comp]

lemma validateCuisines_floats (cs : List (String × Rat)) :
    validateCuisines (cs.map (fun c => (c.1, PyVal.pfloat c.2))) = some cs := by
  induction cs with
  | nil => rfl
  | cons c rest ih =>
    simp [validateCuisines, asFloat, ih]

lemma priceTier_eq_len_div_three (pr : Option String) :
    priceTier pr = (pr.getD "").length / 3 := by
  cases pr with
  | none => rfl
  | some s =>
    simp only [priceTier, Option.getD]
    split
    · rename_i h
      rw [String.isEmpty_iff] at h
      subst h
      rfl
    · rfl

lemma reviewContentsAux_eq (titles texts : List String) (i : Nat) :
    reviewContentsAux i titles texts =
      concatAll ((List.range titles.length).map
        (fun j => reviewLine (i + j) (titles.getD j "") (texts.getD (i + j) ""))) := by
  induction titles generalizing i with
  | nil => rfl
  | cons t rest ih =>
    rw [reviewContentsAux, ih (i + 1)]
    simp only [List.length_cons, List.range_succ_eq_map, List.map_cons, List.map_map]
    rw [concatAll]
    simp only [List.foldr_cons, List.getD_cons_zero, Nat.add_zero]
    rw [concatAll]
    have hm :
        List.map (fun j => reviewLine (i + 1 + j) (rest.getD j "") (texts.getD (i + 1 + j) ""))
            (List.range rest.length) =
          List.map ((fun j => reviewLine (i + j) ((t :: rest).getD j "") (texts.getD (i + j) "")) ∘
              Nat.succ)
            (List.range rest.length) := by
      apply List.map_congr_left
      intro j _
      have h1 : i + 1 + j = i + (j + 1) := by omega
      simp only [Function.comp, Nat.succ_eq_add_one, List.getD_cons_succ, h1]
    rw [hm]
    rfl

/-! ## Claim theorems -/

/-- C1 (counterexample): the claim "shape validation rejects any profile
with a `preferredCuisines` value outside [0,1]" is false: a profile whose
`indian` score is 2 passes `models.UserProfile` validation unchanged — the
declared field type `Dict[str, float]` carries no range constraint. -/
theorem userProfile_out_of_range_value_accepted :
    validateUserProfile (mkProfileVal [("indian", 2)] 1 (9 / 2) "cozy" "balanced") =
      some ⟨[("indian", 2)], 1, 9 / 2, "cozy", "balanced"⟩ ∧
    ¬ ((2 : Rat) ≤ 1) := by
  exact ⟨rfl, by norm_num⟩

/-- C1 (amended): `models.UserProfile` shape validation checks only the
declared field types; every `preferred_cuisines` mapping of float scores —
whatever their values, in [0,1] or not — is accepted and returned
unchanged, neither rejected nor clamped. -/
theorem userProfile_shape_validation_type_only
    (cuisines : List (String × Rat)) (pt : Int) (ar : Rat) (de su : String) :
    validateUserProfile (mkProfileVal cuisines pt ar de su) =
      some ⟨cuisines, pt, ar, de, su⟩ := by
  simp [validateUserProfile, mkProfileVal, pyGet, List.find?, validateCuisines_floats,
    asInt, asFloat, asStr]

/-- C2 (counterexample): the claim "the assembled stage graph has exactly
one root stage" fails for the capability set containing only trendSearch:
the food-trend task is created with no `context` argument, so both the
profile stage and the trend stage have empty dependency sets. -/
theorem stage_graph_two_rootless_stages :
    ((buildGraph false true).filter (fun s => s.deps.isEmpty)).map (fun s => s.name) =
      [StageName.profile, StageName.trend] ∧
    ((buildGraph false true).filter (fun s => s.deps.isEmpty)).length ≠ 1 := by
  decide

/-- C2 (amended): for every capability subset, the graph has exactly one
terminal stage — the recommendation stage, last in the list, on which no
stage depends — whose dependency list equals all the other selected
stages in the fixed order profile, retrieval, trend; the profile stage has
no dependencies, and it is the unique dependency-free stage exactly when
trendSearch is not selected (a selected trend stage also has an empty
dependency set). -/
theorem stage_graph_terminal_and_roots (ret trend : Bool) :
    ((buildGraph ret trend).filter
        (fun s => (buildGraph ret trend).all (fun t => !(t.deps.contains s.name)))).map
        (fun s => s.name) = [StageName.recommendation] ∧
    (buildGraph ret trend).getLast?.map (fun s => s.deps) =
      some (((buildGraph ret trend).dropLast).map (fun s => s.name)) ∧
    ((buildGraph ret trend).dropLast).map (fun s => s.name) =
      [StageName.profile] ++ (if ret then [StageName.retrieval] else []) ++
        (if trend then [StageName.trend] else []) ∧
    ((buildGraph ret trend).filter (fun s => s.deps.isEmpty)).map (fun s => s.name) =
      [StageName.profile] ++ (if trend then [StageName.trend] else []) := by
  cases ret <;> cases trend <;> decide

/-- C3 (counterexample): the claim "when the retrieval capability is
unavailable the search operation returns an empty sequence" is false: with
no injected retriever, `RAG_Retriever._run` returns the sentinel string
`Retriever not initialized.`, not the rendering of an empty result
(`str({})`). -/
theorem retriever_unavailable_returns_sentinel :
    RAG_Retriever_run none "user profile" = "Retriever not initialized." ∧
    RAG_Retriever_run none "user profile" ≠ pyStrDict [] := by
  exact ⟨rfl, by decide⟩

/-- C3 (amended): when the retriever capability is unavailable,
`RAG_Retriever._run` returns the fixed sentinel string
`Retriever not initialized.` rather than an empty result, and it never
raises into the pipeline: an exception from `invoke` is caught and returned
as an error string, and an empty retrieval renders as the empty dict. -/
theorem retriever_tool_never_raises (p e : String) :
    RAG_Retriever_run none p = "Retriever not initialized." ∧
    RAG_Retriever_run (some (fun _ => .error e)) p = "Error using RAG tool: " ++ e ∧
    RAG_Retriever_run (some (fun _ => .ok [])) p = pyStrDict [] := by
  exact ⟨rfl, rfl, rfl⟩

/-- C4: for every fixed input database, the Document Builder's ids are the
contiguous range `0..N-1` (hence unique) where `N` is the total number of
records, and it produces exactly one document per record in input order,
each carrying its record's category and rendered content. -/
theorem document_ids_unique_dense_one_per_record (db : Db) :
    (buildDocuments db).map (fun d => d.id) = List.range (flattenDb db).length ∧
    (buildDocuments db).length = (flattenDb db).length ∧
    ((buildDocuments db).map (fun d => d.id)).Nodup ∧
    (buildDocuments db).map (fun d => (d.source, d.text)) =
      (flattenDb db).map (fun p => (p.1, shopContent p.2)) := by
  have hid : (buildDocuments db).map (fun d => d.id) = List.range (flattenDb db).length := by
    rw [buildDocuments, buildAux_map_id, List.range_eq_range']
  refine ⟨hid, ?_, ?_, ?_⟩
  · have := congrArg List.length hid
    simpa using this
  · rw [hid]
    exact List.nodup_range _
  · rw [buildDocuments, buildAux_map_rec]

/-- C5: when the mandatory generation capability was never initialized
(`llm` is falsy), every call to `main.recommend` raises the 503
service-unavailable error immediately — for every capability set, request
history, environment and crew behaviour, so before any task is created or
executed. -/
theorem recommend_without_llm_fails_503 (ret trend : Bool)
    (request_history : Option (List VisitRecord)) (env : Env) (location : String)
    (kickoff : List Stage → List VisitRecord → String → Except String String) :
    recommend false ret trend request_history env location kickoff =
      .error (503, serviceUnavailableDetail) := by
  rfl

/-- C6: with the generation capability present but neither optional
capability available, the assembled graph is exactly the two stages
profile and recommendation, the recommendation stage depends only on the
profile stage, and whenever the crew execution succeeds the run completes
with its result. -/
theorem recommend_no_optional_capabilities
    (request_history : Option (List VisitRecord)) (env : Env) (location : String)
    (kickoff : List Stage → List VisitRecord → String → Except String String)
    (result : String) :
    buildGraph false false =
      [⟨.profile, []⟩, ⟨.recommendation, [.profile]⟩] ∧
    (buildGraph false false).length = 2 ∧
    (kickoff (buildGraph false false) (effectiveHistory request_history env) location =
        .ok result →
      recommend true false false request_history env location kickoff =
        .ok ⟨result, "Crew execution completed."⟩) := by
  refine ⟨rfl, rfl, fun h => ?_⟩
  simp [recommend, h]

/-- C6 (witness): a concrete run with no optional capabilities and a
succeeding crew execution completes. -/
theorem recommend_no_optional_capabilities_witness :
    recommend true false false none ⟨none, none⟩ "Delhi"
        (fun _ _ _ => .ok "recommended") =
      .ok ⟨"recommended", "Crew execution completed."⟩ :=
  (recommend_no_optional_capabilities none ⟨none, none⟩ "Delhi"
    (fun _ _ _ => .ok "recommended") "recommended").2.2 rfl

/-- C7: for every shop record, the price tier emitted in the document text
equals the raw price-range string's length integer-divided by 3, and is 0
when the field is missing or empty; the document text indeed embeds that
tier after the `Shop price_range:` label. -/
theorem price_tier_from_length_div_three (shop : ShopRecord) (s : String) :
    priceTier shop.price_range = ((shop.price_range.getD "").length) / 3 ∧
    priceTier none = 0 ∧
    priceTier (some "") = 0 ∧
    priceTier (some s) = s.length / 3 ∧
    ∃ pre post,
      shopContent shop =
        pre ++ ("Shop price_range: " ++ toString (priceTier shop.price_range) ++ ". ") ++
          post := by
  refine ⟨priceTier_eq_len_div_three _, rfl, rfl, ?_, ?_⟩
  · simpa using priceTier_eq_len_div_three (some s)
  · exact ⟨shopContentPre shop, shopContentPost shop, rfl⟩

/-- C8: the Document Builder is total and defaulting: review entry `j`
pairs the `j`-th title with the `j`-th review text, substituting the empty
string when no text exists at that position; and a record with every field
missing still yields the fixed header with `Unknown`/`0`/empty defaults and
empty dish and review sections. -/
theorem document_builder_defaults_and_review_pairing (titles texts : List String) :
    reviewContents titles texts =
      concatAll ((List.range titles.length).map
        (fun j => reviewLine j (titles.getD j "") (texts.getD j ""))) ∧
    shopContent ⟨none, none, none, none, none, none, none, none, none⟩ =
      "Shop name: Unknown. Shop type: Unknown. Shop location: Unknown. Shop rating: 0. Shop price_range: 0. Shop short description: . \n\nThe following are the signature dishes. \n\nThe following are the sampled reviews. \n" := by
  constructor
  · rw [reviewContents, reviewContentsAux_eq]
    simp
  · rfl

/-- C9: `main.startup_event` calls `setup_rag(api_key=...)` without a
`url`, and `setup_rag` raises `ValueError` whenever `url` is absent; the
exception is caught in startup, so after every startup `retriever_tool` is
`None` and the retrieval stage is omitted from every request's graph. -/
theorem startup_retriever_tool_always_none (db : Option Db)
    (api_key project_id gemini_apikey serper_api_key : Option String) (trend : Bool) :
    setup_rag db api_key project_id none = .error "URL for Watsonx must be provided." ∧
    (startup_event gemini_apikey serper_api_key db).retriever_tool = none ∧
    StageName.retrieval ∉ (buildGraph false trend).map (fun s => s.name) := by
  refine ⟨rfl, ?_, ?_⟩
  · cases gemini_apikey with
    | none => rfl
    | some s =>
      simp only [startup_event, setup_rag]
      split <;> rfl
  · cases trend <;> decide

/-- C10: `data_loader.load_default_history` is total: a missing data file,
an unreadable or malformed CSV, and any processing failure all yield the
empty list; on success it yields the processed rows; and `main.recommend`
with an absent or empty request history proceeds with exactly that
(possibly empty) default list. -/
theorem history_loader_total_and_empty_on_failure (env : Env)
    (x : Option (Except String (List ItemRow))) (y : Option (Except String (List ReviewRow)))
    (e1 e2 : String) (reviews : List ReviewRow) (items : List ItemRow) :
    load_default_history ⟨none, x⟩ = [] ∧
    load_default_history ⟨y, none⟩ = [] ∧
    load_default_history ⟨some (.error e1), x⟩ = [] ∧
    load_default_history ⟨some (.ok reviews), some (.error e2)⟩ = [] ∧
    load_default_history ⟨some (.ok reviews), some (.ok items)⟩ =
      processHistory reviews items ∧
    effectiveHistory none env = load_default_history env ∧
    effectiveHistory (some []) env = load_default_history env := by
  refine ⟨?_, ?_, ?_, rfl, rfl, rfl, rfl⟩
  · rcases x with _ | e
    · rfl
    · rcases e with e | rows <;> rfl
  · rcases y with _ | e
    · rfl
    · rcases e with e | rows <;> rfl
  · rcases x with _ | e
    · rfl
    · rcases e with e | rows <;> rfl
